import Mathlib

/-!
Verification development for the drone-altitude-guardian core.

The embedded code lives in `src/lib/agents/`:
`DroneEnvironment.ts`, `ReflexAgent.ts`, `ModelBasedAgent.ts`,
`AStarPlanner.ts`.

Modelling conventions:
* JavaScript numbers that only ever hold integers (altitudes, winds,
  actions, search costs) are modelled as `Int`; numbers that hold exact
  decimal fractions or means (wind intensity, the random draw, wind
  trends) are modelled as `ℚ`.
* `Math.random()` draws are passed in explicitly as a rational
  `random ∈ [0,1)`; `Date.now()` timestamps are passed in as a `Nat`
  parameter `now`.
* The planner's `Infinity` sentinel cost is modelled as `none` in an
  `Option Int`; a finite cost `c` is `some c`.
* Class instances become explicit state records; a mutating method
  becomes a function returning the updated record (paired with the
  method's return value when it has one).
-/

namespace DroneGuardian

/-! ### DroneEnvironment (DroneEnvironment.ts) -/

/-- One entry of the environment history (`EnvironmentState` in the source). -/
structure EnvironmentState where
  altitude : Int
  wind : Int
  timestamp : Nat
  isStable : Bool
deriving DecidableEq, Repr

/-- The mutable fields of the `DroneEnvironment` class. -/
structure DroneEnvironment where
  altitude : Int
  history : List EnvironmentState
  windIntensity : ℚ
deriving DecidableEq, Repr

namespace DroneEnvironment

def MIN_ALTITUDE : Int := 0

def MAX_ALTITUDE : Int := 10

def SAFE_MIN : Int := 4

def SAFE_MAX : Int := 6

/-- `isInSafeZone()`: `altitude >= SAFE_MIN && altitude <= SAFE_MAX`. -/
def isInSafeZone (env : DroneEnvironment) : Bool :=
  decide (SAFE_MIN ≤ env.altitude ∧ env.altitude ≤ SAFE_MAX)

/-- `isCritical()`: `altitude < 3 || altitude > 7`. -/
def isCritical (env : DroneEnvironment) : Bool :=
  decide (env.altitude < 3 ∨ env.altitude > 7)

/-- `recordState(wind)`: push a snapshot of the current state onto history. -/
def recordState (wind : Int) (now : Nat) (env : DroneEnvironment) : DroneEnvironment :=
  { env with history := env.history ++
      [{ altitude := env.altitude, wind, timestamp := now, isStable := isInSafeZone env }] }

/-- The `DroneEnvironment(initialAltitude = 5)` constructor: clamp the
initial altitude to `[MIN_ALTITUDE, MAX_ALTITUDE]`, start with empty
history and wind intensity `1.0`, then record one initial state. -/
def mkDroneEnvironment (initialAltitude : Int) (now : Nat) : DroneEnvironment :=
  recordState 0 now
    { altitude := max MIN_ALTITUDE (min MAX_ALTITUDE initialAltitude)
      history := []
      windIntensity := 1 }

/-- `setWindIntensity(intensity)`: clamp to `[0,1]` and store. -/
def setWindIntensity (intensity : ℚ) (env : DroneEnvironment) : DroneEnvironment :=
  { env with windIntensity := max 0 (min 1 intensity) }

/-- `generateWind()`: the drawn `Math.random()` value is the explicit
argument `random`; the thresholds are computed from the stored wind
intensity exactly as in the source (`0.67` and `0.33` literals). -/
def generateWind (random : ℚ) (windIntensity : ℚ) : Int :=
  let noWindProbability := (1 - windIntensity) * (67/100) + 33/100
  let negWindProbability := noWindProbability + (1 - noWindProbability) / 2
  if random < (1 - noWindProbability) / 2 then -1
  else if random < negWindProbability then 0
  else 1

/-- The mutation half of `applyWind()`: given the generated wind value,
add it to the altitude, clamp to bounds, and record the state. -/
def applyWindValue (wind : Int) (now : Nat) (env : DroneEnvironment) : DroneEnvironment :=
  recordState wind now
    { env with altitude := max MIN_ALTITUDE (min MAX_ALTITUDE (env.altitude + wind)) }

/-- `applyWind()`: generate a wind value from the random draw, apply it,
and return the drawn value together with the updated environment. -/
def applyWind (random : ℚ) (now : Nat) (env : DroneEnvironment) :
    Int × DroneEnvironment :=
  let wind := generateWind random env.windIntensity
  (wind, applyWindValue wind now env)

/-- `applyAction(adjustment)`: add the adjustment and clamp to bounds.
No history record is appended. -/
def applyAction (adjustment : Int) (env : DroneEnvironment) : DroneEnvironment :=
  { env with altitude := max MIN_ALTITUDE (min MAX_ALTITUDE (env.altitude + adjustment)) }

/-- `reset(initialAltitude = 5)`: clamp and set the altitude, clear the
history, and record one initial state with wind `0`. -/
def reset (initialAltitude : Int) (now : Nat) (env : DroneEnvironment) : DroneEnvironment :=
  recordState 0 now
    { env with altitude := max MIN_ALTITUDE (min MAX_ALTITUDE initialAltitude)
               history := [] }

/-- The altitude-bounds invariant claimed by the spec. -/
def inBounds (env : DroneEnvironment) : Prop :=
  MIN_ALTITUDE ≤ env.altitude ∧ env.altitude ≤ MAX_ALTITUDE

instance (env : DroneEnvironment) : Decidable (inBounds env) := by
  unfold inBounds; infer_instance

/-- The lower threshold of `generateWind`: draws in `[0, windLowThreshold i)`
produce wind `-1`. -/
def windLowThreshold (windIntensity : ℚ) : ℚ :=
  (1 - ((1 - windIntensity) * (67/100) + 33/100)) / 2

/-- The middle threshold of `generateWind`: draws in
`[windLowThreshold i, windMidThreshold i)` produce wind `0`, and draws in
`[windMidThreshold i, 1)` produce wind `+1`. -/
def windMidThreshold (windIntensity : ℚ) : ℚ :=
  let noWindProbability := (1 - windIntensity) * (67/100) + 33/100
  noWindProbability + (1 - noWindProbability) / 2

end DroneEnvironment

/-! ### ReflexAgent (ReflexAgent.ts) -/

/-- One entry of the reflex agent's action log. -/
structure ReflexActionRecord where
  altitude : Int
  action : Int
  timestamp : Nat
deriving DecidableEq, Repr

/-- The mutable fields of the `ReflexAgent` class. -/
structure ReflexAgent where
  actionHistory : List ReflexActionRecord
deriving DecidableEq, Repr

namespace ReflexAgent

def SAFE_MIN : Int := 4

def SAFE_MAX : Int := 6

/-- `decideAction(currentAltitude)`: the threshold rule, then the chosen
action is appended to the agent's log. Returns the action and the
updated agent. -/
def decideAction (agent : ReflexAgent) (currentAltitude : Int) (now : Nat) :
    Int × ReflexAgent :=
  let act : Int :=
    if currentAltitude < SAFE_MIN then 1
    else if currentAltitude > SAFE_MAX then -1
    else 0
  (act, { agent with actionHistory := agent.actionHistory ++
      [{ altitude := currentAltitude, action := act, timestamp := now }] })

end ReflexAgent

/-! ### ModelBasedAgent (ModelBasedAgent.ts) -/

/-- One entry of the model-based agent's action log. -/
structure ModelActionRecord where
  altitude : Int
  predictedAltitude : ℚ
  action : Int
  windTrend : ℚ
  timestamp : Nat
deriving DecidableEq, Repr

/-- The mutable fields of the `ModelBasedAgent` class. -/
structure ModelBasedAgent where
  windHistory : List Int
  actionHistory : List ModelActionRecord
deriving DecidableEq, Repr

namespace ModelBasedAgent

def SAFE_MIN : Int := 4

def SAFE_MAX : Int := 6

def HISTORY_WINDOW : Nat := 5

/-- `updateModel(wind)`: push the observation; if the window exceeds
`HISTORY_WINDOW`, evict the oldest entry (`shift()`). -/
def updateModel (wind : Int) (agent : ModelBasedAgent) : ModelBasedAgent :=
  let wh := agent.windHistory ++ [wind]
  { agent with windHistory := if wh.length > HISTORY_WINDOW then wh.tail else wh }

/-- `getWindTrend()`: arithmetic mean of the wind window, `0` if empty.
The source sums with `reduce((acc, wind) => acc + wind, 0)` and divides
by the window length. -/
def getWindTrend (agent : ModelBasedAgent) : ℚ :=
  if agent.windHistory.length = 0 then 0
  else (agent.windHistory.foldl (fun (acc : ℚ) (w : Int) => acc + (w : ℚ)) 0) /
    (agent.windHistory.length : ℚ)

/-- `predictNextAltitude(currentAltitude)`: current altitude plus the
wind trend. -/
def predictNextAltitude (agent : ModelBasedAgent) (currentAltitude : Int) : ℚ :=
  (currentAltitude : ℚ) + getWindTrend agent

/-- `recordAction(...)`: push an entry onto the agent's action log. -/
def recordAction (altitude : Int) (predictedAltitude : ℚ) (act : Int)
    (windTrend : ℚ) (now : Nat) (agent : ModelBasedAgent) : ModelBasedAgent :=
  { agent with actionHistory := agent.actionHistory ++
      [{ altitude, predictedAltitude, action := act, windTrend, timestamp := now }] }

/-- `decideAction(currentAltitude)`: the five-branch cascade on the
predicted altitude, then on the current altitude; the action is logged
before it is returned. -/
def decideAction (agent : ModelBasedAgent) (currentAltitude : Int) (now : Nat) :
    Int × ModelBasedAgent :=
  let windTrend := getWindTrend agent
  let predictedAltitude := predictNextAltitude agent currentAltitude
  let act : Int :=
    if predictedAltitude < (SAFE_MIN : ℚ) then 1
    else if predictedAltitude > (SAFE_MAX : ℚ) then -1
    else if currentAltitude < SAFE_MIN then 1
    else if currentAltitude > SAFE_MAX then -1
    else 0
  (act, recordAction currentAltitude predictedAltitude act windTrend now agent)

end ModelBasedAgent

/-! ### AStarPlanner (AStarPlanner.ts) -/

/-- A search node (`AStarNode` in the source). The `parent` back-reference
makes this a recursive inductive type. -/
inductive AStarNode : Type where
  | mk (altitude : Int) (gCost : Int) (hCost : Int) (fCost : Int)
       (parent : Option AStarNode) (act : Int) : AStarNode
deriving Repr

namespace AStarNode

def altitude : AStarNode → Int
  | .mk a _ _ _ _ _ => a

def gCost : AStarNode → Int
  | .mk _ g _ _ _ _ => g

def fCost : AStarNode → Int
  | .mk _ _ _ f _ _ => f

def parent : AStarNode → Option AStarNode
  | .mk _ _ _ _ p _ => p

def act : AStarNode → Int
  | .mk _ _ _ _ _ a => a

end AStarNode

/-- The record returned by `findPath` (`AStarResult` in the source);
`totalCost = none` models the JavaScript `Infinity` sentinel. -/
structure AStarResult where
  path : List Int
  actions : List Int
  totalCost : Option Int
  nodesExplored : Nat
deriving DecidableEq, Repr

namespace AStarPlanner

def MIN_ALTITUDE : Int := 0

def MAX_ALTITUDE : Int := 10

def SAFE_MIN : Int := 4

def SAFE_MAX : Int := 6

def POSSIBLE_ACTIONS : List Int := [-1, 0, 1]

/-- `heuristic(altitude)`: distance to the nearest safe altitude. -/
def heuristic (altitude : Int) : Int :=
  if SAFE_MIN ≤ altitude ∧ altitude ≤ SAFE_MAX then 0
  else if altitude < SAFE_MIN then SAFE_MIN - altitude
  else altitude - SAFE_MAX

/-- `isGoal(altitude)`: membership in the safe zone. -/
def isGoal (altitude : Int) : Bool :=
  decide (SAFE_MIN ≤ altitude ∧ altitude ≤ SAFE_MAX)

/-- `findLowestFCost(openSet)`: `reduce` over the open set keeping the
node with strictly lower `fCost` (first found wins ties). The source
calls this only on a non-empty array, so the head is the accumulator. -/
def findLowestFCost (o : AStarNode) (os : List AStarNode) : AStarNode :=
  os.foldl (fun lowest node => if node.fCost < lowest.fCost then node else lowest) o

/-- `reconstructPath(goalNode)`: walk the parent links, collecting the
altitude sequence and the action sequence (the root's action is not
collected). -/
def reconstructPath : AStarNode → List Int × List Int
  | .mk a _ _ _ none _ => ([a], [])
  | .mk a _ _ _ (some p) act =>
    let r := reconstructPath p
    (r.1 ++ [a], r.2 ++ [act])

/-- Replace the first open-set node at the given altitude (the source
overwrites `openSet[index]` in place). -/
def replaceByAltitude (alt : Int) (nn : AStarNode) : List AStarNode → List AStarNode
  | [] => []
  | x :: xs => if x.altitude = alt then nn :: xs else x :: replaceByAltitude alt nn xs

/-- The neighbor-processing step of the `for (const action of
POSSIBLE_ACTIONS)` loop body: bounds check, closed-set check, cost
computation, then insert or improve the open-set entry. -/
def processNeighbor (current : AStarNode) (closed : List Int)
    (openSet : List AStarNode) (act : Int) : List AStarNode :=
  let newAltitude := current.altitude + act
  if newAltitude < MIN_ALTITUDE ∨ newAltitude > MAX_ALTITUDE then openSet
  else if newAltitude ∈ closed then openSet
  else
    let gCost := current.gCost + (if act ≠ 0 then 1 else 0)
    let hCost := heuristic newAltitude
    let fCost := gCost + hCost
    match openSet.find? (fun n => decide (n.altitude = newAltitude)) with
    | none =>
      openSet ++ [AStarNode.mk newAltitude gCost hCost fCost (some current) act]
    | some existing =>
      if gCost < existing.gCost then
        replaceByAltitude newAltitude
          (AStarNode.mk newAltitude gCost hCost fCost (some current) act) openSet
      else openSet

/-- The full neighbor loop over `POSSIBLE_ACTIONS`. -/
def exploreNeighbors (current : AStarNode) (closed : List Int)
    (openSet : List AStarNode) : List AStarNode :=
  POSSIBLE_ACTIONS.foldl (processNeighbor current closed) openSet

/-- The `while (openSet.length > 0)` loop of `findPath`. An empty open
set returns the source's sentinel result. The `fuel` argument only
bounds the recursion depth for Lean's termination checker; the source
loop terminates in at most a dozen iterations (the closed set grows
each round inside the bounded altitude range), so the exhaustion branch
is unreachable with the fuel supplied by `findPath`. -/
def findPathAux (startAltitude : Int) (fuel : Nat) (openSet : List AStarNode)
    (closed : List Int) (nodesExplored : Nat) : AStarResult :=
  match openSet with
  | [] => { path := [startAltitude], actions := [], totalCost := none, nodesExplored }
  | o :: os =>
    match fuel with
    | 0 => { path := [startAltitude], actions := [], totalCost := none, nodesExplored }
    | f + 1 =>
      let current := findLowestFCost o os
      let openRest := (o :: os).eraseP (fun n => decide (n.altitude = current.altitude))
      if isGoal current.altitude then
        let r := reconstructPath current
        { path := r.1, actions := r.2, totalCost := some current.gCost
          nodesExplored := nodesExplored + 1 }
      else
        let closed' := current.altitude :: closed
        findPathAux startAltitude f (exploreNeighbors current closed' openRest)
          closed' (nodesExplored + 1)

/-- `findPath(startAltitude)`: run the search from the start node. -/
def findPath (startAltitude : Int) : AStarResult :=
  findPathAux startAltitude 100
    [AStarNode.mk startAltitude 0 (heuristic startAltitude) (heuristic startAltitude)
      none 0]
    [] 0

/-- `getNextAction(currentAltitude)`: first action of the computed plan,
`0` when the plan has no actions. -/
def getNextAction (currentAltitude : Int) : Int :=
  match (findPath currentAltitude).actions with
  | [] => 0
  | a :: _ => a

/-- Run a list of planner actions from a start altitude (the claim-side
notion of executing a plan: each unit action shifts the altitude). -/
def runActions (s : Int) : List Int → Int
  | [] => s
  | a :: as => runActions (s + a) as

/-- The set of costs of plans built from unit actions that reach the
safe band from `s`; a plan's cost counts its non-zero actions, exactly
as the planner's edge costs do. -/
def reachCostSet (s : Int) : Set ℕ :=
  {n | ∃ acts : List Int, (∀ a ∈ acts, a = -1 ∨ a = 0 ∨ a = 1) ∧
    isGoal (runActions s acts) = true ∧
    (acts.filter (fun a => a != 0)).length = n}

/-- A canonical straight-line plan into the safe band, used as the
optimal witness. -/
def mkPlan (s : Int) : List Int :=
  if s < SAFE_MIN then List.replicate (SAFE_MIN - s).toNat 1
  else if s > SAFE_MAX then List.replicate (s - SAFE_MAX).toNat (-1)
  else []

end AStarPlanner

/-- Claim-side definition of the mean of a wind window: `0` when the
window is empty, the sum divided by the length otherwise. -/
def windowMean (l : List Int) : ℚ :=
  if l = [] then 0 else ((l.sum : Int) : ℚ) / (l.length : ℚ)

/-! ## Helper lemmas -/

section Helpers

open DroneEnvironment

lemma clamp_mem (x : Int) :
    MIN_ALTITUDE ≤ max MIN_ALTITUDE (min MAX_ALTITUDE x) ∧
    max MIN_ALTITUDE (min MAX_ALTITUDE x) ≤ MAX_ALTITUDE := by
  unfold MIN_ALTITUDE MAX_ALTITUDE
  omega

lemma recordState_altitude (wind : Int) (now : Nat) (env : DroneEnvironment) :
    (recordState wind now env).altitude = env.altitude := rfl

lemma foldl_ratCast_add (l : List Int) (a : ℚ) :
    l.foldl (fun (acc : ℚ) (w : Int) => acc + (w : ℚ)) a = a + ((l.sum : Int) : ℚ) := by
  induction l generalizing a with
  | nil => simp
  | cons x xs ih =>
    rw [List.foldl_cons, ih, List.sum_cons]
    push_cast
    ring

lemma getWindTrend_eq_windowMean (agent : ModelBasedAgent) :
    ModelBasedAgent.getWindTrend agent = windowMean agent.windHistory := by
  unfold ModelBasedAgent.getWindTrend windowMean
  rcases agent.windHistory with _ | ⟨x, xs⟩
  · simp
  · rw [foldl_ratCast_add]
    simp

end Helpers

/-! ## Claim theorems -/

section Claims

open DroneEnvironment

/-- C1: every mutation of the environment's altitude (constructor,
`applyWind`, `applyAction`, `reset`) clamps it to
`[MIN_ALTITUDE, MAX_ALTITUDE] = [0,10]`; in particular, starting from
any altitude in `[0,10]`, applying a disturbance in `{-1,0,+1}` and then
an action in `{-1,0,+1}` leaves the altitude inside `[0,10]`. -/
theorem altitude_always_clamped :
    (∀ (env : DroneEnvironment) (d act : Int) (now : Nat),
      MIN_ALTITUDE ≤ env.altitude → env.altitude ≤ MAX_ALTITUDE →
      (d = -1 ∨ d = 0 ∨ d = 1) → (act = -1 ∨ act = 0 ∨ act = 1) →
      inBounds (applyAction act (applyWindValue d now env))) ∧
    (∀ (init : Int) (now : Nat), inBounds (mkDroneEnvironment init now)) ∧
    (∀ (env : DroneEnvironment) (r : ℚ) (now : Nat),
      inBounds (applyWind r now env).2) ∧
    (∀ (env : DroneEnvironment) (a : Int), inBounds (applyAction a env)) ∧
    (∀ (env : DroneEnvironment) (init : Int) (now : Nat),
      inBounds (reset init now env)) := by
  refine ⟨fun env d act now _ _ _ _ => ?_, fun init now => ?_,
    fun env r now => ?_, fun env a => ?_, fun env init now => ?_⟩ <;>
    simp only [inBounds, applyAction, applyWindValue, applyWind,
      mkDroneEnvironment, reset, recordState_altitude] <;>
    exact clamp_mem _

/-- Witness for C1 at altitude 5, disturbance `-1`, action `+1`. -/
theorem altitude_always_clamped_witness :
    inBounds (applyAction 1 (applyWindValue (-1) 0
      { altitude := 5, history := [], windIntensity := 1 })) :=
  altitude_always_clamped.1 { altitude := 5, history := [], windIntensity := 1 }
    (-1) 1 0 (by decide) (by decide) (Or.inl rfl) (Or.inr (Or.inr rfl))

/-- C6: `isCritical` holds exactly on altitudes below 3 or above 7,
`isInSafeZone` exactly on altitudes in `[4,6]`, and the two classifiers
are never simultaneously true of the same environment. -/
theorem critical_and_safe_classifiers (env : DroneEnvironment) :
    (isCritical env = true ↔ env.altitude < 3 ∨ env.altitude > 7) ∧
    (isInSafeZone env = true ↔ 4 ≤ env.altitude ∧ env.altitude ≤ 6) ∧
    ¬(isCritical env = true ∧ isInSafeZone env = true) := by
  refine ⟨?_, ?_, ?_⟩
  · simp [isCritical]
  · simp [isInSafeZone, SAFE_MIN, SAFE_MAX]
  · rintro ⟨h1, h2⟩
    simp only [isCritical, isInSafeZone, SAFE_MIN, SAFE_MAX, decide_eq_true_eq] at h1 h2
    omega

/-- C8: `applyAction` never touches the history, while `applyWind`
appends exactly one record per call. -/
theorem history_capture_is_disturbance_triggered :
    (∀ (env : DroneEnvironment) (a : Int),
      (applyAction a env).history = env.history) ∧
    (∀ (env : DroneEnvironment) (r : ℚ) (now : Nat),
      ∃ entry, ((applyWind r now env).2).history = env.history ++ [entry]) := by
  exact ⟨fun env a => rfl, fun env r now => ⟨_, rfl⟩⟩

/-- C4: the reflex agent's decision is a function of the current
altitude alone — identical for any two agent states — and follows the
threshold rule, with `decideAction 3 = +1`, `decideAction 7 = -1`,
`decideAction 5 = 0` in every state. -/
theorem reflex_decide_depends_only_on_altitude
    (s t : ReflexAgent) (alt : Int) (n m : Nat) :
    (ReflexAgent.decideAction s alt n).1 = (ReflexAgent.decideAction t alt m).1 ∧
    (ReflexAgent.decideAction s alt n).1 =
      (if alt < 4 then 1 else if alt > 6 then -1 else 0) ∧
    (ReflexAgent.decideAction s 3 n).1 = 1 ∧
    (ReflexAgent.decideAction s 7 n).1 = -1 ∧
    (ReflexAgent.decideAction s 5 n).1 = 0 := by
  refine ⟨rfl, rfl, ?_, ?_, ?_⟩ <;> rfl

/-- C3: the model-based agent's decision follows the five-step
precedence exactly on the window mean, and overrides a currently-safe
altitude when the forecast is unsafe: with window `[-2,-2]` (mean `-2`)
and current altitude `5`, the action is `+1`. -/
theorem model_based_five_step_precedence
    (agent : ModelBasedAgent) (alt : Int) (n m : Nat) :
    (ModelBasedAgent.decideAction agent alt n).1 =
      (if (alt : ℚ) + windowMean agent.windHistory < 4 then 1
       else if (alt : ℚ) + windowMean agent.windHistory > 6 then -1
       else if alt < 4 then 1
       else if alt > 6 then -1
       else 0) ∧
    (ModelBasedAgent.decideAction
      { windHistory := [-2, -2], actionHistory := [] } 5 m).1 = 1 := by
  constructor
  · show (if ModelBasedAgent.predictNextAltitude agent alt < ((4 : Int) : ℚ) then (1 : Int)
        else if ModelBasedAgent.predictNextAltitude agent alt > ((6 : Int) : ℚ) then -1
        else if alt < 4 then 1
        else if alt > 6 then -1
        else 0) = _
    rw [ModelBasedAgent.predictNextAltitude, getWindTrend_eq_windowMean]
    norm_num
  · norm_num [ModelBasedAgent.decideAction, ModelBasedAgent.predictNextAltitude,
      ModelBasedAgent.getWindTrend, ModelBasedAgent.SAFE_MIN]

/-- C5: with an empty wind window, the model-based agent decides exactly
as the reflex agent on every altitude, in every reflex-agent state. -/
theorem empty_window_matches_reflex (ma : ModelBasedAgent)
    (h : ma.windHistory = []) (ra : ReflexAgent) (alt : Int) (n m : Nat) :
    (ModelBasedAgent.decideAction ma alt n).1 =
      (ReflexAgent.decideAction ra alt m).1 := by
  show (if ModelBasedAgent.predictNextAltitude ma alt < ((4 : Int) : ℚ) then (1 : Int)
      else if ModelBasedAgent.predictNextAltitude ma alt > ((6 : Int) : ℚ) then -1
      else if alt < ModelBasedAgent.SAFE_MIN then 1
      else if alt > ModelBasedAgent.SAFE_MAX then -1
      else 0) =
    (if alt < ReflexAgent.SAFE_MIN then 1
      else if alt > ReflexAgent.SAFE_MAX then -1
      else 0)
  have hp : ModelBasedAgent.predictNextAltitude ma alt = (alt : ℚ) := by
    rw [ModelBasedAgent.predictNextAltitude, getWindTrend_eq_windowMean, h]
    simp [windowMean]
  rw [hp]
  have h4 : ((alt : ℚ) < ((4 : Int) : ℚ)) ↔ (alt < 4) := by exact_mod_cast Iff.rfl
  have h6 : ((alt : ℚ) > ((6 : Int) : ℚ)) ↔ (6 < alt) := by exact_mod_cast Iff.rfl
  simp only [ModelBasedAgent.SAFE_MIN, ModelBasedAgent.SAFE_MAX,
    ReflexAgent.SAFE_MIN, ReflexAgent.SAFE_MAX, h4, h6, gt_iff_lt]
  split_ifs <;> rfl

/-- Witness for C5 at the empty-window agent and altitude 3. -/
theorem empty_window_matches_reflex_witness :
    (ModelBasedAgent.decideAction
        { windHistory := [], actionHistory := [] } 3 0).1 =
      (ReflexAgent.decideAction { actionHistory := [] } 3 0).1 :=
  empty_window_matches_reflex { windHistory := [], actionHistory := [] } rfl
    { actionHistory := [] } 3 0 0

/-- C9 counterexample: at intensity 1 the wind outcomes do not occupy
exactly one third of the draw interval each. The `-1` interval is
`[0, windLowThreshold 1)` and the `0` interval ends at
`windMidThreshold 1`, but `windLowThreshold 1 = 67/200 ≠ 1/3` and
`windMidThreshold 1 = 133/200 ≠ 2/3`; concretely the draw `1/3`, which
an exact one-third split would map to wind `0`, produces wind `-1`. -/
theorem generateWind_not_exact_thirds :
    ¬(windLowThreshold 1 = 1/3 ∧ windMidThreshold 1 = 2/3) ∧
    generateWind (1/3) 1 = -1 := by
  constructor
  · rintro ⟨h1, -⟩
    norm_num [windLowThreshold] at h1
  · norm_num [generateWind]

/-- C9 (amended): at intensity 0 the generated wind is always 0; at
intensity 1 the outcomes `-1`, `0`, `+1` occupy the intervals
`[0, 67/200)`, `[67/200, 133/200)`, `[133/200, 1)` — lengths `67/200`,
`33/100`, `67/200`, approximately but not exactly one third each — and
at every intensity the `-1` and `+1` outcomes occupy intervals of equal
length. -/
theorem generateWind_intensity_profile :
    (∀ r : ℚ, 0 ≤ r → r < 1 → generateWind r 0 = 0) ∧
    (∀ r : ℚ, 0 ≤ r → r < 1 →
      ((generateWind r 1 = -1 ↔ r < 67/200) ∧
       (generateWind r 1 = 0 ↔ 67/200 ≤ r ∧ r < 133/200) ∧
       (generateWind r 1 = 1 ↔ 133/200 ≤ r))) ∧
    (∀ i : ℚ, 0 ≤ i → i ≤ 1 →
      windLowThreshold i - 0 = 1 - windMidThreshold i) := by
  refine ⟨fun r h0 h1 => ?_, fun r h0 h1 => ?_, fun i hi0 hi1 => ?_⟩
  · unfold generateWind
    dsimp only
    split_ifs with ha hb
    · exfalso; linarith
    · rfl
    · exfalso; linarith
  · unfold generateWind
    dsimp only
    split_ifs with ha hb
    · exact ⟨iff_of_true rfl (by linarith),
        iff_of_false (by norm_num) (fun hc => by linarith [hc.1]),
        iff_of_false (by norm_num) (by intro hc; linarith)⟩
    · exact ⟨iff_of_false (by norm_num) (by intro hc; linarith),
        iff_of_true rfl ⟨by linarith, by linarith⟩,
        iff_of_false (by norm_num) (by intro hc; linarith)⟩
    · exact ⟨iff_of_false (by norm_num) (by intro hc; linarith),
        iff_of_false (by norm_num) (fun hc => by linarith [hc.2]),
        iff_of_true rfl (by linarith)⟩
  · unfold windLowThreshold windMidThreshold
    dsimp only
    ring

/-- Witness for the amended C9 at draw `1/2` and intensity `1/2`. -/
theorem generateWind_intensity_profile_witness :
    generateWind (1/2) 0 = 0 ∧
    (generateWind (1/2) 1 = 0 ↔ (67/200 : ℚ) ≤ 1/2 ∧ (1/2 : ℚ) < 133/200) ∧
    windLowThreshold (1/2) - 0 = 1 - windMidThreshold (1/2) :=
  ⟨generateWind_intensity_profile.1 (1/2) (by norm_num) (by norm_num),
   (generateWind_intensity_profile.2.1 (1/2) (by norm_num) (by norm_num)).2.1,
   generateWind_intensity_profile.2.2 (1/2) (by norm_num) (by norm_num)⟩

end Claims

section PlannerHelpers

open AStarPlanner

lemma findPathAux_nil (start : Int) (f : Nat) (closed : List Int) (n : Nat) :
    findPathAux start f [] closed n =
      { path := [start], actions := [], totalCost := none, nodesExplored := n } := by
  rw [findPathAux.eq_def]

lemma findPathAux_step (start : Int) (f : Nat) (o : AStarNode) (os : List AStarNode)
    (closed : List Int) (n : Nat) :
    findPathAux start (f + 1) (o :: os) closed n =
      (let current := findLowestFCost o os
       let openRest := (o :: os).eraseP (fun nd => decide (nd.altitude = current.altitude))
       if isGoal current.altitude then
         let r := reconstructPath current
         { path := r.1, actions := r.2, totalCost := some current.gCost
           nodesExplored := n + 1 }
       else
         let closed' := current.altitude :: closed
         findPathAux start f (exploreNeighbors current closed' openRest)
           closed' (n + 1)) := by
  rw [findPathAux.eq_def]

lemma processNeighbor_out_of_bounds (current : AStarNode) (closed : List Int)
    (openSet : List AStarNode) (a : Int)
    (h : current.altitude + a < MIN_ALTITUDE ∨ current.altitude + a > MAX_ALTITUDE) :
    processNeighbor current closed openSet a = openSet := by
  unfold processNeighbor
  dsimp only
  rw [if_pos h]

lemma heuristic_nonneg (a : Int) : 0 ≤ heuristic a := by
  unfold heuristic SAFE_MIN SAFE_MAX
  split_ifs <;> omega

lemma heuristic_zero_of_goal (a : Int) (h : isGoal a = true) : heuristic a = 0 := by
  unfold isGoal at h
  rw [decide_eq_true_eq] at h
  unfold heuristic
  rw [if_pos h]

lemma heuristic_unit_step (a b : Int) (h : b = -1 ∨ b = 1) :
    heuristic a ≤ heuristic (a + b) + 1 := by
  unfold heuristic SAFE_MIN SAFE_MAX
  rcases h with h | h <;> subst h <;> split_ifs <;> omega

/-- Any plan of unit actions that ends in the safe band performs at
least `heuristic s` non-zero actions: the planner's heuristic is a
genuine lower bound on plan cost. -/
lemma minCost_ge (acts : List Int) : ∀ s : Int,
    (∀ a ∈ acts, a = -1 ∨ a = 0 ∨ a = 1) →
    isGoal (runActions s acts) = true →
    (heuristic s).toNat ≤ (acts.filter (fun a => a != 0)).length := by
  induction acts with
  | nil =>
    intro s _ hg
    have h0 := heuristic_zero_of_goal s (by simpa [runActions] using hg)
    simp [h0]
  | cons a as ih =>
    intro s hall hg
    have ha := hall a (List.mem_cons_self a as)
    have hrest : ∀ x ∈ as, x = -1 ∨ x = 0 ∨ x = 1 :=
      fun x hx => hall x (List.mem_cons_of_mem a hx)
    have hg' : isGoal (runActions (s + a) as) = true := by
      simpa [runActions] using hg
    have hi := ih (s + a) hrest hg'
    rcases ha with h | h | h
    · subst h
      have hb := heuristic_unit_step s (-1) (Or.inl rfl)
      have hnn := heuristic_nonneg (s + -1)
      simp only [List.filter_cons, List.length_cons]
      norm_num
      omega
    · subst h
      rw [show s + 0 = s from by ring] at hi
      simpa [List.filter_cons] using hi
    · subst h
      have hb := heuristic_unit_step s 1 (Or.inr rfl)
      have hnn := heuristic_nonneg (s + 1)
      simp only [List.filter_cons, List.length_cons]
      norm_num
      omega

/-- A plan of cost `k = heuristic s` that reaches the band makes `k` the
least element of the reachable-cost set. -/
lemma isLeast_reachCostSet (s : Int) (k : ℕ) (acts : List Int)
    (hall : ∀ a ∈ acts, a = -1 ∨ a = 0 ∨ a = 1)
    (hg : isGoal (runActions s acts) = true)
    (hlen : (acts.filter (fun a => a != 0)).length = k)
    (hmin : (heuristic s).toNat = k) :
    IsLeast (reachCostSet s) k := by
  constructor
  · exact ⟨acts, hall, hg, hlen⟩
  · rintro n ⟨as, g1, g2, g3⟩
    exact g3 ▸ hmin ▸ minCost_ge as s g1 g2

end PlannerHelpers

section PlannerClaims

open AStarPlanner

/-- C2: from every start altitude in `[0,10]`, `findPath` ends its path
inside the safe band `[4,6]` and its `totalCost` is the minimum number
of unit actions needed to reach the band; `findPath 0` costs 4 with
actions `[+1,+1,+1,+1]`, `findPath 10` costs 4 with actions
`[-1,-1,-1,-1]`, and `findPath 5` returns `path = [5]`, `actions = []`,
`totalCost = 0`. -/
theorem findPath_reaches_band_at_min_cost (s : Int) (h0 : 0 ≤ s) (h1 : s ≤ 10) :
    (∃ e, (findPath s).path.getLast? = some e ∧ SAFE_MIN ≤ e ∧ e ≤ SAFE_MAX) ∧
    (∃ k : ℕ, (findPath s).totalCost = some (k : Int) ∧ IsLeast (reachCostSet s) k) ∧
    (findPath 0).actions = [1, 1, 1, 1] ∧ (findPath 0).totalCost = some 4 ∧
    (findPath 10).actions = [-1, -1, -1, -1] ∧ (findPath 10).totalCost = some 4 ∧
    (findPath 5).path = [5] ∧ (findPath 5).actions = [] ∧
    (findPath 5).totalCost = some 0 := by
  refine ⟨?_, ?_, by decide, by decide, by decide, by decide, by decide, by decide,
    by decide⟩
  · interval_cases s <;>
      first
        | exact ⟨4, by decide, by decide, by decide⟩
        | exact ⟨5, by decide, by decide, by decide⟩
        | exact ⟨6, by decide, by decide, by decide⟩
  · interval_cases s
    · exact ⟨4, by decide, isLeast_reachCostSet 0 4 (mkPlan 0)
        (by decide) (by decide) (by decide) (by decide)⟩
    · exact ⟨3, by decide, isLeast_reachCostSet 1 3 (mkPlan 1)
        (by decide) (by decide) (by decide) (by decide)⟩
    · exact ⟨2, by decide, isLeast_reachCostSet 2 2 (mkPlan 2)
        (by decide) (by decide) (by decide) (by decide)⟩
    · exact ⟨1, by decide, isLeast_reachCostSet 3 1 (mkPlan 3)
        (by decide) (by decide) (by decide) (by decide)⟩
    · exact ⟨0, by decide, isLeast_reachCostSet 4 0 (mkPlan 4)
        (by decide) (by decide) (by decide) (by decide)⟩
    · exact ⟨0, by decide, isLeast_reachCostSet 5 0 (mkPlan 5)
        (by decide) (by decide) (by decide) (by decide)⟩
    · exact ⟨0, by decide, isLeast_reachCostSet 6 0 (mkPlan 6)
        (by decide) (by decide) (by decide) (by decide)⟩
    · exact ⟨1, by decide, isLeast_reachCostSet 7 1 (mkPlan 7)
        (by decide) (by decide) (by decide) (by decide)⟩
    · exact ⟨2, by decide, isLeast_reachCostSet 8 2 (mkPlan 8)
        (by decide) (by decide) (by decide) (by decide)⟩
    · exact ⟨3, by decide, isLeast_reachCostSet 9 3 (mkPlan 9)
        (by decide) (by decide) (by decide) (by decide)⟩
    · exact ⟨4, by decide, isLeast_reachCostSet 10 4 (mkPlan 10)
        (by decide) (by decide) (by decide) (by decide)⟩

/-- Witness for C2 at start altitude 0. -/
theorem findPath_reaches_band_at_min_cost_witness :
    (∃ e, (findPath 0).path.getLast? = some e ∧ SAFE_MIN ≤ e ∧ e ≤ SAFE_MAX) ∧
    (∃ k : ℕ, (findPath 0).totalCost = some (k : Int) ∧ IsLeast (reachCostSet 0) k) ∧
    (findPath 0).actions = [1, 1, 1, 1] ∧ (findPath 0).totalCost = some 4 ∧
    (findPath 10).actions = [-1, -1, -1, -1] ∧ (findPath 10).totalCost = some 4 ∧
    (findPath 5).path = [5] ∧ (findPath 5).actions = [] ∧
    (findPath 5).totalCost = some 0 :=
  findPath_reaches_band_at_min_cost 0 (by decide) (by decide)

/-- C7: the search loop never throws — an exhausted frontier returns the
sentinel result (`path = [startAltitude]`, `actions = []`,
`totalCost = Infinity`, `nodesExplored` as counted) — and
`getNextAction` returns the first action of the computed plan, or `0`
when the plan's action list is empty. -/
theorem findPath_sentinel_and_first_plan_step :
    (∀ (start : Int) (f : Nat) (closed : List Int) (n : Nat),
      findPathAux start f [] closed n =
        { path := [start], actions := [], totalCost := none, nodesExplored := n }) ∧
    (∀ a : Int,
      ((findPath a).actions = [] → getNextAction a = 0) ∧
      (∀ (x : Int) (xs : List Int),
        (findPath a).actions = x :: xs → getNextAction a = x)) := by
  refine ⟨fun start f closed n => findPathAux_nil start f closed n,
    fun a => ⟨?_, ?_⟩⟩
  · intro h
    unfold getNextAction
    rw [h]
  · intro x xs h
    unfold getNextAction
    rw [h]

/-- Witness for C7: the sentinel equation at a concrete frontier, and
`getNextAction` at altitudes 12 (empty plan) and 0 (plan starting with
`+1`). -/
theorem findPath_sentinel_and_first_plan_step_witness :
    findPathAux 20 5 [] [3] 2 =
      { path := [20], actions := [], totalCost := none, nodesExplored := 2 } ∧
    getNextAction 12 = 0 ∧ getNextAction 0 = 1 :=
  ⟨findPath_sentinel_and_first_plan_step.1 20 5 [3] 2,
   (findPath_sentinel_and_first_plan_step.2 12).1 (by decide),
   (findPath_sentinel_and_first_plan_step.2 0).2 1 [1, 1, 1] (by decide)⟩

/-- C10: the exhaustion sentinel is reachable at the public interface:
every start altitude at least 12 or at most -2 has all its neighbors
fail the bounds check, so `findPath` returns the sentinel with
`nodesExplored = 1`; start altitudes 11 and -1 still reach the safe
band with finite cost 5. -/
theorem findPath_far_out_hits_sentinel :
    (∀ s : Int, 12 ≤ s ∨ s ≤ -2 →
      findPath s =
        { path := [s], actions := [], totalCost := none, nodesExplored := 1 }) ∧
    (findPath 11).totalCost = some 5 ∧ (findPath 11).path.getLastD 99 = 6 ∧
    (findPath (-1)).totalCost = some 5 ∧ (findPath (-1)).path.getLastD 99 = 4 := by
  refine ⟨?_, by decide, by decide, by decide, by decide⟩
  intro s hs
  have hg : isGoal s = false := by
    unfold isGoal SAFE_MIN SAFE_MAX
    rw [decide_eq_false_iff_not]
    rintro ⟨h1, h2⟩
    omega
  unfold findPath
  rw [show (100 : Nat) = 99 + 1 from rfl, findPathAux_step]
  simp only [findLowestFCost, List.foldl_nil, AStarNode.altitude, List.eraseP_cons,
    decide_True, hg, Bool.false_eq_true, if_false, cond_true]
  rw [exploreNeighbors]
  unfold POSSIBLE_ACTIONS
  simp only [List.foldl_cons, List.foldl_nil]
  rw [processNeighbor_out_of_bounds _ _ _ _
        (by simp [AStarNode.altitude, MIN_ALTITUDE, MAX_ALTITUDE]; omega),
      processNeighbor_out_of_bounds _ _ _ _
        (by simp [AStarNode.altitude, MIN_ALTITUDE, MAX_ALTITUDE]; omega),
      processNeighbor_out_of_bounds _ _ _ _
        (by simp [AStarNode.altitude, MIN_ALTITUDE, MAX_ALTITUDE]; omega)]
  exact findPathAux_nil s 99 [s] 1

/-- Witness for C10 at start altitude 12. -/
theorem findPath_far_out_hits_sentinel_witness :
    findPath 12 =
      { path := [12], actions := [], totalCost := none, nodesExplored := 1 } ∧
    (findPath 11).totalCost = some 5 :=
  ⟨findPath_far_out_hits_sentinel.1 12 (Or.inl (by decide)),
   findPath_far_out_hits_sentinel.2.1⟩

end PlannerClaims

end DroneGuardian
